import Mathlib

/-!
Shallow embedding of the in-memory storage layer (class MemStorage) of the
event-registration and QR-ticket application.  JS Maps are modelled as
association lists with JS Map semantics (set replaces in place, delete removes
the entry, get returns the first binding); the random ticket identifier, the
current time stamps and the scan-history identifiers are passed in as explicit
parameters; JS falsiness of 0 and of the empty string is modelled explicitly.
-/

namespace EventApp

/-- Lookup in an association list, modelling JS Map.get (undefined = none). -/
def mapGet {κ ν : Type} [DecidableEq κ] : List (κ × ν) → κ → Option ν
  | [], _ => none
  | (k, v) :: rest, key => if k = key then some v else mapGet rest key

/-- Insert-or-replace in an association list, modelling JS Map.set: an existing
binding is replaced in place, a new binding is appended at the end. -/
def mapSet {κ ν : Type} [DecidableEq κ] : List (κ × ν) → κ → ν → List (κ × ν)
  | [], key, v => [(key, v)]
  | (k, w) :: rest, key, v =>
      if k = key then (key, v) :: rest else (k, w) :: mapSet rest key v

/-- Removal from an association list, modelling JS Map.delete. -/
def mapDelete {κ ν : Type} [DecidableEq κ] : List (κ × ν) → κ → List (κ × ν)
  | [], _ => []
  | (k, w) :: rest, key => if k = key then rest else (k, w) :: mapDelete rest key

/-- Model of the JS idiom `s || null` on an optional string: the empty string
is falsy, so both undefined and the empty string collapse to null. -/
def jsStrOrNull : Option String → Option String
  | some t => if t = "" then none else some t
  | none => none

/-- One member of the optional team-member list of a registration. -/
structure TeamMember where
  name : String
  email : Option String
  phone : Option String
  deriving DecidableEq, Repr

/-- The Registration record, from the fields assembled by
MemStorage.createRegistration.  Statuses are the string literals used in the
source: pending, active, checked-in, exhausted. -/
structure Registration where
  id : String
  name : String
  email : String
  phone : String
  organization : String
  groupSize : Nat
  scans : Nat
  maxScans : Nat
  hasQR : Bool
  qrCodeData : Option String
  status : String
  createdAt : String
  formId : Option Nat
  customFieldData : List (String × String)
  teamMembers : List TeamMember
  deriving DecidableEq, Repr

/-- Insert payload for a registration.  The shared schema module is not among
the given sources; the fields are exactly those that
MemStorage.createRegistration reads from its data argument, each optional to
model absence in a Partial update (for formId the outer option is key
presence and the inner option is an explicit null). -/
structure InsertRegistration where
  name : Option String
  email : Option String
  phone : Option String
  organization : Option String
  groupSize : Option Nat
  formId : Option (Option Nat)
  customFieldData : Option (List (String × String))
  teamMembers : Option (List TeamMember)
  deriving DecidableEq, Repr

/-- The EventForm record, from the fields assembled by
MemStorage.createEventForm.  Custom links, custom fields and base fields are
opaque payloads, modelled as strings. -/
structure EventForm where
  id : Nat
  title : String
  subtitle : Option String
  heroImageUrl : Option String
  backgroundImageUrl : Option String
  watermarkUrl : Option String
  logoUrl : Option String
  customLinks : List String
  description : Option String
  customFields : List String
  baseFields : List (String × String)
  successMessage : Option String
  successTitle : Option String
  isPublished : Bool
  createdAt : String
  updatedAt : String
  deriving DecidableEq, Repr

/-- Input payload for createEventForm (title is required, the rest optional). -/
structure EventFormInput where
  title : String
  subtitle : Option String
  heroImageUrl : Option String
  backgroundImageUrl : Option String
  watermarkUrl : Option String
  logoUrl : Option String
  customLinks : Option (List String)
  description : Option String
  customFields : Option (List String)
  baseFields : Option (List (String × String))
  successMessage : Option String
  successTitle : Option String
  deriving DecidableEq, Repr

/-- One entry of the scan-history log. -/
structure ScanRecord where
  id : String
  ticketId : String
  scannedAt : String
  valid : Bool
  deriving DecidableEq, Repr

/-- The result record of verifyAndScan: valid flag, optional registration and
message. -/
structure ScanResult where
  valid : Bool
  registration : Option Registration
  message : String
  deriving DecidableEq, Repr

/-- The private state of MemStorage: the two maps, the form-id counter and the
scan history. -/
structure MemStorage where
  registrations : List (String × Registration)
  eventForms : List (Nat × EventForm)
  nextFormId : Nat
  scanHistory : List ScanRecord
  deriving Repr

/-- The state of the freshly constructed MemStorage. -/
def emptyStorage : MemStorage :=
  { registrations := [], eventForms := [], nextFormId := 1, scanHistory := [] }

/-- MemStorage.createRegistration.  The randomly generated ticket id and the
current time are explicit parameters; groupSize falls back to 1 when absent or
0 (JS falsiness), and maxScans = groupSize * 1. -/
def createRegistration (s : MemStorage) (id now : String)
    (data : InsertRegistration) : Registration × MemStorage :=
  let groupSize :=
    match data.groupSize with
    | some g => if g = 0 then 1 else g
    | none => 1
  let maxScans := groupSize * 1
  let registration : Registration :=
    { id := id
      name := data.name.getD ""
      email := data.email.getD ""
      phone := data.phone.getD ""
      organization := data.organization.getD ""
      groupSize := groupSize
      scans := 0
      maxScans := maxScans
      hasQR := false
      qrCodeData := none
      status := "pending"
      createdAt := now
      formId := data.formId.join
      customFieldData := data.customFieldData.getD []
      teamMembers := data.teamMembers.getD [] }
  (registration, { s with registrations := mapSet s.registrations id registration })

/-- MemStorage.getRegistration. -/
def getRegistration (s : MemStorage) (id : String) : Option Registration :=
  mapGet s.registrations id

/-- MemStorage.getRegistrationsByFormId (limit and offset omitted, as in the
internal call from getFormStats). -/
def getRegistrationsByFormId (s : MemStorage) (formId : Nat) : List Registration :=
  (s.registrations.map Prod.snd).filter (fun r => r.formId == some formId)

/-- Statistics record returned by getStats and getFormStats. -/
structure Stats where
  totalRegistrations : Nat
  qrCodesGenerated : Nat
  totalEntries : Nat
  activeRegistrations : Nat
  deriving DecidableEq, Repr

/-- MemStorage.getFormStats: statistics over the registrations of one form;
totalEntries counts only status checked-in. -/
def getFormStats (s : MemStorage) (formId : Nat) : Stats :=
  let regs := getRegistrationsByFormId s formId
  { totalRegistrations := regs.length
    qrCodesGenerated := (regs.filter (fun r => r.hasQR)).length
    totalEntries := (regs.filter (fun r => r.status == "checked-in")).length
    activeRegistrations :=
      (regs.filter (fun r => r.status == "active" || r.status == "pending")).length }

/-- MemStorage.getStats: global statistics; totalEntries counts status
checked-in or exhausted. -/
def getStats (s : MemStorage) : Stats :=
  let allRegs := s.registrations.map Prod.snd
  { totalRegistrations := allRegs.length
    qrCodesGenerated := (allRegs.filter (fun r => r.hasQR)).length
    totalEntries :=
      (allRegs.filter (fun r => r.status == "checked-in" || r.status == "exhausted")).length
    activeRegistrations :=
      (allRegs.filter (fun r => r.status == "active" || r.status == "pending")).length }

/-- MemStorage.generateQRCode: false when the id is absent, otherwise sets
hasQR, stores the QR payload and moves the status to active. -/
def generateQRCode (s : MemStorage) (id qrCodeData : String) : Bool × MemStorage :=
  match mapGet s.registrations id with
  | none => (false, s)
  | some reg =>
      let reg2 := { reg with hasQR := true, qrCodeData := some qrCodeData, status := "active" }
      (true, { s with registrations := mapSet s.registrations id reg2 })

/-- MemStorage.verifyAndScan.  The scan-history entry id and time stamp are
explicit parameters.  Four guarded branches: not found, no QR, exhausted
(by status, or by scan count with a status write-back), and the valid scan
that increments the count and reclassifies the status. -/
def verifyAndScan (s : MemStorage) (ticketId scanId scannedAt : String) :
    ScanResult × MemStorage :=
  match mapGet s.registrations ticketId with
  | none => ({ valid := false, registration := none, message := "Invalid ticket - not found" }, s)
  | some registration =>
      if registration.hasQR = false then
        ({ valid := false, registration := some registration,
           message := "QR code not generated yet" }, s)
      else if registration.status = "exhausted" then
        ({ valid := false, registration := some registration,
           message := "Ticket exhausted - max scans reached" }, s)
      else if registration.maxScans ≤ registration.scans then
        let reg2 := { registration with status := "exhausted" }
        ({ valid := false, registration := some reg2, message := "Maximum scans reached" },
         { s with registrations := mapSet s.registrations ticketId reg2 })
      else
        let reg2 := { registration with scans := registration.scans + 1 }
        let reg3 :=
          { reg2 with status := if reg2.maxScans ≤ reg2.scans then "exhausted" else "checked-in" }
        let sc := reg3.scans
        let mx := reg3.maxScans
        ({ valid := true, registration := some reg3,
           message := "Valid! " ++ toString sc ++ "/" ++ toString mx ++ " scans used" },
         { s with
             registrations := mapSet s.registrations ticketId reg3,
             scanHistory := s.scanHistory ++
               [{ id := scanId, ticketId := ticketId, scannedAt := scannedAt, valid := true }] })

/-- MemStorage.deleteRegistration: Map.delete returns whether the id existed. -/
def deleteRegistration (s : MemStorage) (id : String) : Bool × MemStorage :=
  match mapGet s.registrations id with
  | none => (false, s)
  | some _ => (true, { s with registrations := mapDelete s.registrations id })

/-- MemStorage.revokeQRCode: false when the id is absent, otherwise clears the
QR flag and payload, resets the status to pending and the scan count to 0. -/
def revokeQRCode (s : MemStorage) (id : String) : Bool × MemStorage :=
  match mapGet s.registrations id with
  | none => (false, s)
  | some reg =>
      let reg2 := { reg with hasQR := false, qrCodeData := none, status := "pending", scans := 0 }
      (true, { s with registrations := mapSet s.registrations id reg2 })

/-- Object.assign(reg, data) for a Partial insert payload: every present key
overwrites the corresponding registration field. -/
def applyUpdate (reg : Registration) (data : InsertRegistration) : Registration :=
  { reg with
      name := data.name.getD reg.name
      email := data.email.getD reg.email
      phone := data.phone.getD reg.phone
      organization := data.organization.getD reg.organization
      groupSize := data.groupSize.getD reg.groupSize
      formId := data.formId.getD reg.formId
      customFieldData := data.customFieldData.getD reg.customFieldData
      teamMembers := data.teamMembers.getD reg.teamMembers }

/-- MemStorage.updateRegistration. -/
def updateRegistration (s : MemStorage) (id : String) (data : InsertRegistration) :
    Bool × MemStorage :=
  match mapGet s.registrations id with
  | none => (false, s)
  | some reg =>
      (true, { s with registrations := mapSet s.registrations id (applyUpdate reg data) })

/-- MemStorage.createEventForm: takes the next sequential form id, fills the
defaults, always starts unpublished.  The current time is a parameter. -/
def createEventForm (s : MemStorage) (now : String) (data : EventFormInput) :
    EventForm × MemStorage :=
  let id := s.nextFormId
  let form : EventForm :=
    { id := id
      title := data.title
      subtitle := jsStrOrNull data.subtitle
      heroImageUrl := jsStrOrNull data.heroImageUrl
      backgroundImageUrl := jsStrOrNull data.backgroundImageUrl
      watermarkUrl := jsStrOrNull data.watermarkUrl
      logoUrl := jsStrOrNull data.logoUrl
      customLinks := data.customLinks.getD []
      description := jsStrOrNull data.description
      customFields := data.customFields.getD []
      baseFields := data.baseFields.getD []
      successMessage := jsStrOrNull data.successMessage
      successTitle := jsStrOrNull data.successTitle
      isPublished := false
      createdAt := now
      updatedAt := now }
  (form, { s with eventForms := mapSet s.eventForms id form, nextFormId := s.nextFormId + 1 })

/-- MemStorage.getEventForm (null = none). -/
def getEventForm (s : MemStorage) (id : Nat) : Option EventForm :=
  mapGet s.eventForms id

/-- MemStorage.getPublishedForm: the first published form, or null. -/
def getPublishedForm (s : MemStorage) : Option EventForm :=
  (s.eventForms.map Prod.snd).find? (fun f => f.isPublished)

/-- MemStorage.updateEventForm: Object.assign with an untyped payload is
modelled by an arbitrary field rewrite, after which updatedAt is stamped. -/
def updateEventForm (s : MemStorage) (id : Nat) (now : String)
    (data : EventForm → EventForm) : Bool × MemStorage :=
  match mapGet s.eventForms id with
  | none => (false, s)
  | some form =>
      (true, { s with eventForms := mapSet s.eventForms id { data form with updatedAt := now } })

/-- MemStorage.publishEventForm: unpublishes every form, then publishes the
target. -/
def publishEventForm (s : MemStorage) (id : Nat) : Bool × MemStorage :=
  match mapGet s.eventForms id with
  | none => (false, s)
  | some form =>
      let unpublished := s.eventForms.map (fun p => (p.1, { p.2 with isPublished := false }))
      (true, { s with eventForms := mapSet unpublished id { form with isPublished := true } })

/-- MemStorage.unpublishEventForm. -/
def unpublishEventForm (s : MemStorage) (id : Nat) : Bool × MemStorage :=
  match mapGet s.eventForms id with
  | none => (false, s)
  | some form =>
      (true, { s with eventForms := mapSet s.eventForms id { form with isPublished := false } })

/-- MemStorage.deleteEventForm: Map.delete returns whether the id existed. -/
def deleteEventForm (s : MemStorage) (id : Nat) : Bool × MemStorage :=
  match mapGet s.eventForms id with
  | none => (false, s)
  | some _ => (true, { s with eventForms := mapDelete s.eventForms id })

/-- The updated registration written by the valid-scan branch of
verifyAndScan: the count goes up by one and the status is reclassified. -/
def scannedReg (r : Registration) : Registration :=
  { r with
      scans := r.scans + 1
      status := if r.maxScans ≤ r.scans + 1 then "exhausted" else "checked-in" }

/-- Iterated scanning of one ticket with no other operation interleaved; the
scan-history metadata of the n-th call is supplied by the meta function. -/
def scanTimes (s : MemStorage) (tid : String) (meta : Nat → String × String) :
    Nat → MemStorage
  | 0 => s
  | n + 1 =>
      (verifyAndScan (scanTimes s tid meta n) tid (meta n).1 (meta n).2).2

/-- The state after registering one attendee and issuing the QR code: the
composition of createRegistration and generateQRCode. -/
def afterIssue (s0 : MemStorage) (id now qr : String) (data : InsertRegistration) :
    MemStorage :=
  (generateQRCode (createRegistration s0 id now data).2 id qr).2

/-- One mutating storage operation, with all generated identifiers and time
stamps explicit. -/
inductive Op where
  | createReg (id now : String) (data : InsertRegistration)
  | genQR (id qr : String)
  | scan (ticketId scanId scannedAt : String)
  | revoke (id : String)
  | updateReg (id : String) (data : InsertRegistration)
  | deleteReg (id : String)
  | createForm (now : String) (data : EventFormInput)
  | updateForm (id : Nat) (now : String) (data : EventForm → EventForm)
  | publishForm (id : Nat)
  | unpublishForm (id : Nat)
  | deleteForm (id : Nat)

/-- State transition of one operation (results are discarded). -/
def applyOp (s : MemStorage) : Op → MemStorage
  | .createReg id now data => (createRegistration s id now data).2
  | .genQR id qr => (generateQRCode s id qr).2
  | .scan tid a b => (verifyAndScan s tid a b).2
  | .revoke id => (revokeQRCode s id).2
  | .updateReg id data => (updateRegistration s id data).2
  | .deleteReg id => (deleteRegistration s id).2
  | .createForm now data => (createEventForm s now data).2
  | .updateForm id now data => (updateEventForm s id now data).2
  | .publishForm id => (publishEventForm s id).2
  | .unpublishForm id => (unpublishEventForm s id).2
  | .deleteForm id => (deleteEventForm s id).2

/-- Run a sequence of operations from a state. -/
def runOps (s : MemStorage) (ops : List Op) : MemStorage :=
  ops.foldl applyOp s

/-- One event-form operation of the restricted language of claim C7:
create, publish, unpublish, delete. -/
inductive FormOp where
  | create (now : String) (data : EventFormInput)
  | publish (id : Nat)
  | unpublish (id : Nat)
  | delete (id : Nat)

/-- State transition of one event-form operation. -/
def applyFormOp (s : MemStorage) : FormOp → MemStorage
  | .create now data => (createEventForm s now data).2
  | .publish id => (publishEventForm s id).2
  | .unpublish id => (unpublishEventForm s id).2
  | .delete id => (deleteEventForm s id).2

/-- Run a sequence of event-form operations from a state. -/
def runFormOps (s : MemStorage) (ops : List FormOp) : MemStorage :=
  ops.foldl applyFormOp s

/-- Number of published forms in a stored form list. -/
def countPublished (m : List (Nat × EventForm)) : Nat :=
  ((m.map Prod.snd).filter (fun f => f.isPublished)).length

/-- Number of stored event forms that are currently published. -/
def publishedCount (s : MemStorage) : Nat :=
  countPublished s.eventForms

/-- The scan-count invariant of claim C3: every stored registration keeps its
scan count within its maximum. -/
def RegInvariant (s : MemStorage) : Prop :=
  ∀ p ∈ s.registrations, p.2.scans ≤ p.2.maxScans

/-- Concrete insert payload used to evaluate the theorems: a group of two. -/
def insertExample : InsertRegistration :=
  { name := some "Ada", email := some "ada@example.com", phone := some "123",
    organization := some "Org", groupSize := some 2, formId := some (some 1),
    customFieldData := some [], teamMembers := some [] }

/-- Concrete event-form input used to evaluate the theorems. -/
def formInputExample : EventFormInput :=
  { title := "Launch", subtitle := none, heroImageUrl := none, backgroundImageUrl := none,
    watermarkUrl := none, logoUrl := none, customLinks := none, description := none,
    customFields := none, baseFields := none, successMessage := none, successTitle := none }

/-- Concrete registration that has used up its single scan. -/
def regExhausted : Registration :=
  { id := "REG2000", name := "Bo", email := "", phone := "", organization := "",
    groupSize := 1, scans := 1, maxScans := 1, hasQR := true, qrCodeData := some "QR",
    status := "exhausted", createdAt := "t0", formId := some 1, customFieldData := [],
    teamMembers := [] }

/-- The form created first from the empty store. -/
def formExample : EventForm :=
  (createEventForm emptyStorage "t0" formInputExample).1

/-- Concrete store holding one exhausted registration attached to form 1. -/
def storeExample : MemStorage :=
  { registrations := [("REG2000", regExhausted)],
    eventForms := [(1, formExample)], nextFormId := 2, scanHistory := [] }

/-- Concrete event-form trace: create one form, then publish it. -/
def formOpsExample : List FormOp :=
  [FormOp.create "t0" formInputExample, FormOp.publish 1]

/-- Concrete operation trace creating one registration. -/
def opsExample : List Op :=
  [Op.createReg "REG1000" "t0" insertExample]

/-- The registration created by the concrete trace. -/
def regCreated : Registration :=
  (createRegistration emptyStorage "REG1000" "t0" insertExample).1

/-- Setting a key and then reading it yields the stored value. -/
theorem mapGet_mapSet_self {κ ν : Type} [DecidableEq κ] (m : List (κ × ν)) (k : κ) (v : ν) :
    mapGet (mapSet m k v) k = some v := by
  induction m with
  | nil => simp [mapSet, mapGet]
  | cons p rest ih =>
      obtain ⟨k1, v1⟩ := p
      by_cases h : k1 = k <;> simp [mapSet, mapGet, h, ih]

/-- Setting a key leaves every other key unchanged. -/
theorem mapGet_mapSet_ne {κ ν : Type} [DecidableEq κ] (m : List (κ × ν)) (k k2 : κ) (v : ν)
    (h : k2 ≠ k) : mapGet (mapSet m k v) k2 = mapGet m k2 := by
  have hk : k ≠ k2 := Ne.symm h
  induction m with
  | nil => simp [mapSet, mapGet, hk]
  | cons p rest ih =>
      obtain ⟨k1, v1⟩ := p
      by_cases h1 : k1 = k
      · subst h1
        simp [mapSet, mapGet, hk]
      · simp [mapSet, mapGet, h1, ih]

/-- Lookup fails exactly when no binding carries the key. -/
theorem mapGet_eq_none_iff {κ ν : Type} [DecidableEq κ] (m : List (κ × ν)) (k : κ) :
    mapGet m k = none ↔ ∀ p ∈ m, p.1 ≠ k := by
  induction m with
  | nil => simp [mapGet]
  | cons p rest ih =>
      obtain ⟨k1, v1⟩ := p
      by_cases h : k1 = k <;> simp [mapGet, h, ih]

/-- Lookup succeeds exactly when the key occurs among the bound keys. -/
theorem mapGet_isSome_iff {κ ν : Type} [DecidableEq κ] (m : List (κ × ν)) (k : κ) :
    (mapGet m k).isSome = true ↔ k ∈ m.map Prod.fst := by
  induction m with
  | nil => simp [mapGet]
  | cons p rest ih =>
      obtain ⟨k1, v1⟩ := p
      by_cases h : k1 = k
      · subst h
        simp [mapGet]
      · have h2 : ¬k = k1 := fun hh => h hh.symm
        simp [mapGet, h, h2, ih]

/-- A successful lookup exhibits a binding of the list. -/
theorem mapGet_mem {κ ν : Type} [DecidableEq κ] {m : List (κ × ν)} {k : κ} {v : ν}
    (h : mapGet m k = some v) : (k, v) ∈ m := by
  induction m with
  | nil => simp [mapGet] at h
  | cons p rest ih =>
      obtain ⟨k1, v1⟩ := p
      by_cases h1 : k1 = k
      · subst h1
        simp [mapGet] at h
        simp [h]
      · simp [mapGet, h1] at h
        exact List.mem_cons_of_mem _ (ih h)

/-- Every binding after a set is an old binding or the new one. -/
theorem mem_mapSet {κ ν : Type} [DecidableEq κ] {m : List (κ × ν)} {k : κ} {v : ν}
    {p : κ × ν} (h : p ∈ mapSet m k v) : p ∈ m ∨ p = (k, v) := by
  induction m with
  | nil => simp [mapSet] at h; simp [h]
  | cons q rest ih =>
      obtain ⟨k1, v1⟩ := q
      by_cases h1 : k1 = k
      · subst h1
        simp [mapSet] at h
        rcases h with h | h
        · exact Or.inr (by simp [h])
        · exact Or.inl (List.mem_cons_of_mem _ h)
      · simp [mapSet, h1] at h
        rcases h with h | h
        · exact Or.inl (by simp [h])
        · rcases ih h with h2 | h2
          · exact Or.inl (List.mem_cons_of_mem _ h2)
          · exact Or.inr h2

/-- Every binding after a delete was a binding before. -/
theorem mem_mapDelete {κ ν : Type} [DecidableEq κ] {m : List (κ × ν)} {k : κ}
    {p : κ × ν} (h : p ∈ mapDelete m k) : p ∈ m := by
  induction m with
  | nil => simp [mapDelete] at h
  | cons q rest ih =>
      obtain ⟨k1, v1⟩ := q
      by_cases h1 : k1 = k
      · subst h1
        simp [mapDelete] at h
        exact List.mem_cons_of_mem _ h
      · simp [mapDelete, h1] at h
        rcases h with h | h
        · simp [h]
        · exact List.mem_cons_of_mem _ (ih h)

/-- Deleting one key keeps every binding with a different key. -/
theorem mem_mapDelete_of_ne {κ ν : Type} [DecidableEq κ] {m : List (κ × ν)} {k : κ}
    {p : κ × ν} (hp : p ∈ m) (hne : p.1 ≠ k) : p ∈ mapDelete m k := by
  induction m with
  | nil => simp at hp
  | cons q rest ih =>
      obtain ⟨k1, v1⟩ := q
      rcases List.mem_cons.mp hp with h | h
      · subst h
        simp [mapDelete, hne]
      · by_cases h1 : k1 = k
        · simpa [mapDelete, h1] using h
        · simpa [mapDelete, h1] using Or.inr (ih h)

/-- Branch 1 of verifyAndScan: unknown ticket id. -/
theorem verifyAndScan_not_found {s : MemStorage} {tid : String} (a b : String)
    (h : mapGet s.registrations tid = none) :
    verifyAndScan s tid a b =
      ({ valid := false, registration := none, message := "Invalid ticket - not found" }, s) := by
  simp [verifyAndScan, h]

/-- Branch 2 of verifyAndScan: no QR code was generated. -/
theorem verifyAndScan_no_qr {s : MemStorage} {tid : String} {r : Registration} (a b : String)
    (h : mapGet s.registrations tid = some r) (hq : r.hasQR = false) :
    verifyAndScan s tid a b =
      ({ valid := false, registration := some r, message := "QR code not generated yet" }, s) := by
  simp [verifyAndScan, h, hq]

/-- Branch 3 of verifyAndScan: the status already reads exhausted. -/
theorem verifyAndScan_exhausted_status {s : MemStorage} {tid : String} {r : Registration}
    (a b : String) (h : mapGet s.registrations tid = some r) (hq : r.hasQR = true)
    (hs : r.status = "exhausted") :
    verifyAndScan s tid a b =
      ({ valid := false, registration := some r,
         message := "Ticket exhausted - max scans reached" }, s) := by
  simp [verifyAndScan, h, hq, hs]

/-- Branch 3b of verifyAndScan: the scan count already reached the maximum;
the status is written back as exhausted. -/
theorem verifyAndScan_max_reached {s : MemStorage} {tid : String} {r : Registration}
    (a b : String) (h : mapGet s.registrations tid = some r) (hq : r.hasQR = true)
    (hs : r.status ≠ "exhausted") (hm : r.maxScans ≤ r.scans) :
    verifyAndScan s tid a b =
      ({ valid := false, registration := some { r with status := "exhausted" },
         message := "Maximum scans reached" },
       { s with registrations := mapSet s.registrations tid { r with status := "exhausted" } }) := by
  simp [verifyAndScan, h, hq, hs, hm]

/-- Branch 4 of verifyAndScan: the valid scan. -/
theorem verifyAndScan_ok {s : MemStorage} {tid : String} {r : Registration}
    (a b : String) (h : mapGet s.registrations tid = some r) (hq : r.hasQR = true)
    (hs : r.status ≠ "exhausted") (hm : r.scans < r.maxScans) :
    verifyAndScan s tid a b =
      ({ valid := true, registration := some (scannedReg r),
         message := "Valid! " ++ toString (r.scans + 1) ++ "/" ++ toString r.maxScans
           ++ " scans used" },
       { s with
           registrations := mapSet s.registrations tid (scannedReg r),
           scanHistory := s.scanHistory ++
             [{ id := a, ticketId := tid, scannedAt := b, valid := true }] }) := by
  simp [verifyAndScan, h, hq, hs, Nat.not_le.mpr hm, scannedReg]

/-- Claim C5: basic CRUD round-trips hold.  For every state and input data,
createRegistration followed by getRegistration on the returned id yields the
returned registration, and createEventForm followed by getEventForm on the
returned id yields the returned form. -/
theorem C5_crud_round_trip :
    (∀ (s : MemStorage) (id now : String) (data : InsertRegistration),
      getRegistration (createRegistration s id now data).2
          (createRegistration s id now data).1.id =
        some (createRegistration s id now data).1)
    ∧ (∀ (s : MemStorage) (now : String) (data : EventFormInput),
      getEventForm (createEventForm s now data).2 (createEventForm s now data).1.id =
        some (createEventForm s now data).1) := by
  constructor
  · intro s id now data
    simp [createRegistration, getRegistration, mapGet_mapSet_self]
  · intro s now data
    simp [createEventForm, getEventForm, mapGet_mapSet_self]

/-- Claim C6: deleteEventForm removes only that event form.  The registrations
map is unchanged, every other stored form survives, and every registration
whose formId points at the deleted form stays stored with the same dangling
formId. -/
theorem C6_delete_form_frame :
    ∀ (s : MemStorage) (fid : Nat),
      (deleteEventForm s fid).2.registrations = s.registrations
      ∧ (∀ q ∈ s.eventForms, q.1 ≠ fid → q ∈ (deleteEventForm s fid).2.eventForms)
      ∧ (∀ p ∈ s.registrations, p.2.formId = some fid →
          p ∈ (deleteEventForm s fid).2.registrations ∧ p.2.formId = some fid) := by
  intro s fid
  cases h : mapGet s.eventForms fid with
  | none =>
      refine ⟨by simp [deleteEventForm, h], ?_, ?_⟩
      · intro q hq _
        simpa [deleteEventForm, h] using hq
      · intro p hp hpf
        exact ⟨by simpa [deleteEventForm, h] using hp, hpf⟩
  | some form =>
      refine ⟨by simp [deleteEventForm, h], ?_, ?_⟩
      · intro q hq hne
        simpa [deleteEventForm, h] using mem_mapDelete_of_ne hq hne
      · intro p hp hpf
        exact ⟨by simpa [deleteEventForm, h] using hp, hpf⟩

/-- Claim C6 witness: deleting form 1 from the concrete store keeps the
registration that references form 1. -/
theorem C6_delete_form_frame_witness :
    (deleteEventForm storeExample 1).2.registrations = storeExample.registrations
    ∧ ("REG2000", regExhausted) ∈ (deleteEventForm storeExample 1).2.registrations
    ∧ regExhausted.formId = some 1 := by
  obtain ⟨h1, _, h3⟩ := C6_delete_form_frame storeExample 1
  obtain ⟨hmem, hfid⟩ := h3 ("REG2000", regExhausted) (by simp [storeExample]) (by decide)
  exact ⟨h1, hmem, hfid⟩

/-- Claim C9: revokeQRCode resets exactly the ticket-issuance state.  On a
missing id it returns false and leaves the store unchanged; on a present id it
returns true, clears hasQR and the QR payload, resets status to pending and
scans to 0, and leaves every other field, every other registration, and the
rest of the store unchanged. -/
theorem C9_revoke_frame :
    ∀ (s : MemStorage) (id : String),
      ((∀ p ∈ s.registrations, p.1 ≠ id) → revokeQRCode s id = (false, s))
      ∧ (∀ r, mapGet s.registrations id = some r →
          (revokeQRCode s id).1 = true
          ∧ mapGet (revokeQRCode s id).2.registrations id =
              some { r with hasQR := false, qrCodeData := none, status := "pending", scans := 0 }
          ∧ (∀ k2, k2 ≠ id →
              mapGet (revokeQRCode s id).2.registrations k2 = mapGet s.registrations k2)
          ∧ (revokeQRCode s id).2.eventForms = s.eventForms
          ∧ (revokeQRCode s id).2.nextFormId = s.nextFormId
          ∧ (revokeQRCode s id).2.scanHistory = s.scanHistory) := by
  intro s id
  constructor
  · intro habs
    have h : mapGet s.registrations id = none := (mapGet_eq_none_iff _ _).mpr habs
    simp [revokeQRCode, h]
  · intro r h
    refine ⟨by simp [revokeQRCode, h], ?_, ?_, ?_, ?_, ?_⟩
    · simp [revokeQRCode, h, mapGet_mapSet_self]
    · intro k2 hk2
      simp [revokeQRCode, h, mapGet_mapSet_ne _ _ _ _ hk2]
    · simp [revokeQRCode, h]
    · simp [revokeQRCode, h]
    · simp [revokeQRCode, h]

/-- Claim C9 witness: revoking the QR code of the stored exhausted
registration succeeds and resets its issuance state. -/
theorem C9_revoke_frame_witness :
    (revokeQRCode storeExample "REG2000").1 = true
    ∧ mapGet (revokeQRCode storeExample "REG2000").2.registrations "REG2000" =
        some { regExhausted with
                 hasQR := false, qrCodeData := none, status := "pending", scans := 0 }
    ∧ (revokeQRCode storeExample "REG2000").2.eventForms = storeExample.eventForms := by
  obtain ⟨h1, h2, _, h4, _, _⟩ :=
    (C9_revoke_frame storeExample "REG2000").2 regExhausted (by simp [storeExample, mapGet])
  exact ⟨h1, h2, h4⟩

/-- Claim C8: the two stats operations disagree on what counts as an entry.
getStats counts registrations whose status is checked-in or exhausted,
getFormStats counts only the checked-in registrations of the given form, so an
exhausted registration of form fid is counted by the former and not by the
latter. -/
theorem C8_stats_totalEntries_disagree :
    (∀ s : MemStorage, (getStats s).totalEntries =
      ((s.registrations.map Prod.snd).filter
          (fun r => r.status == "checked-in" || r.status == "exhausted")).length)
    ∧ (∀ (s : MemStorage) (fid : Nat), (getFormStats s fid).totalEntries =
      ((getRegistrationsByFormId s fid).filter (fun r => r.status == "checked-in")).length)
    ∧ (∀ (s : MemStorage) (fid : Nat) (r : Registration),
        r ∈ s.registrations.map Prod.snd → r.formId = some fid → r.status = "exhausted" →
          r ∈ (s.registrations.map Prod.snd).filter
                (fun r2 => r2.status == "checked-in" || r2.status == "exhausted")
          ∧ r ∉ (getRegistrationsByFormId s fid).filter
                (fun r2 => r2.status == "checked-in")) := by
  refine ⟨fun s => rfl, fun s fid => rfl, ?_⟩
  intro s fid r hmem hfid hst
  constructor
  · exact List.mem_filter.mpr ⟨hmem, by simp [hst]⟩
  · intro hin
    have h2 := (List.mem_filter.mp hin).2
    rw [hst] at h2
    simp at h2

/-- Claim C8 witness: the concrete exhausted registration of form 1 is counted
by getStats and not by getFormStats 1. -/
theorem C8_stats_totalEntries_disagree_witness :
    regExhausted ∈ (storeExample.registrations.map Prod.snd).filter
        (fun r2 => r2.status == "checked-in" || r2.status == "exhausted")
    ∧ regExhausted ∉ (getRegistrationsByFormId storeExample 1).filter
        (fun r2 => r2.status == "checked-in") := by
  exact C8_stats_totalEntries_disagree.2.2 storeExample 1 regExhausted
    (by simp [storeExample]) (by decide) (by decide)

/-- Claim C4: errors are boolean/message results or undefined lookups.
getRegistration yields none exactly when the id is absent; each mutating
operation returns true exactly when the target id exists (hence false when it
is absent); verifyAndScan always yields a valid/message record, and an invalid
result carries a nonempty explanatory message. -/
theorem C4_boolean_error_results :
    ∀ s : MemStorage,
      (∀ id, getRegistration s id = none ↔ ∀ p ∈ s.registrations, p.1 ≠ id)
      ∧ (∀ id qr, (generateQRCode s id qr).1 = true ↔ id ∈ s.registrations.map Prod.fst)
      ∧ (∀ id data, (updateRegistration s id data).1 = true ↔
          id ∈ s.registrations.map Prod.fst)
      ∧ (∀ id, (deleteRegistration s id).1 = true ↔ id ∈ s.registrations.map Prod.fst)
      ∧ (∀ id, (revokeQRCode s id).1 = true ↔ id ∈ s.registrations.map Prod.fst)
      ∧ (∀ id now data, (updateEventForm s id now data).1 = true ↔
          id ∈ s.eventForms.map Prod.fst)
      ∧ (∀ id, (publishEventForm s id).1 = true ↔ id ∈ s.eventForms.map Prod.fst)
      ∧ (∀ id, (unpublishEventForm s id).1 = true ↔ id ∈ s.eventForms.map Prod.fst)
      ∧ (∀ id, (deleteEventForm s id).1 = true ↔ id ∈ s.eventForms.map Prod.fst)
      ∧ (∀ tid a b, (verifyAndScan s tid a b).1.valid = false →
          (verifyAndScan s tid a b).1.message ≠ "") := by
  intro s
  refine ⟨?_, ?_, ?_, ?_, ?_, ?_, ?_, ?_, ?_, ?_⟩
  · intro id
    exact mapGet_eq_none_iff _ _
  · intro id qr
    rw [← mapGet_isSome_iff s.registrations id]
    cases h : mapGet s.registrations id <;> simp [generateQRCode, h]
  · intro id data
    rw [← mapGet_isSome_iff s.registrations id]
    cases h : mapGet s.registrations id <;> simp [updateRegistration, h]
  · intro id
    rw [← mapGet_isSome_iff s.registrations id]
    cases h : mapGet s.registrations id <;> simp [deleteRegistration, h]
  · intro id
    rw [← mapGet_isSome_iff s.registrations id]
    cases h : mapGet s.registrations id <;> simp [revokeQRCode, h]
  · intro id now data
    rw [← mapGet_isSome_iff s.eventForms id]
    cases h : mapGet s.eventForms id <;> simp [updateEventForm, h]
  · intro id
    rw [← mapGet_isSome_iff s.eventForms id]
    cases h : mapGet s.eventForms id <;> simp [publishEventForm, h]
  · intro id
    rw [← mapGet_isSome_iff s.eventForms id]
    cases h : mapGet s.eventForms id <;> simp [unpublishEventForm, h]
  · intro id
    rw [← mapGet_isSome_iff s.eventForms id]
    cases h : mapGet s.eventForms id <;> simp [deleteEventForm, h]
  · intro tid a b
    cases h : mapGet s.registrations tid with
    | none =>
        rw [verifyAndScan_not_found a b h]
        intro _
        simp
    | some r =>
        by_cases hq : r.hasQR
        · by_cases hs : r.status = "exhausted"
          · rw [verifyAndScan_exhausted_status a b h hq hs]
            intro _
            simp
          · by_cases hm : r.maxScans ≤ r.scans
            · rw [verifyAndScan_max_reached a b h hq hs hm]
              intro _
              simp
            · rw [verifyAndScan_ok a b h hq hs (Nat.not_le.mp hm)]
              intro hfalse
              simp at hfalse
        · rw [verifyAndScan_no_qr a b h (Bool.not_eq_true _ ▸ hq)]
          intro _
          simp

/-- Claim C4 witness: on the concrete store, generateQRCode on a missing id
reports false, on the present id true, and an invalid scan of a missing ticket
carries a nonempty message. -/
theorem C4_boolean_error_results_witness :
    (generateQRCode storeExample "MISSING" "QR").1 ≠ true
    ∧ (generateQRCode storeExample "REG2000" "QR").1 = true
    ∧ (verifyAndScan storeExample "MISSING" "a" "b").1.message ≠ "" := by
  refine ⟨?_, ?_, ?_⟩
  · intro hcontra
    have h := ((C4_boolean_error_results storeExample).2.1 "MISSING" "QR").mp hcontra
    simp [storeExample] at h
  · exact ((C4_boolean_error_results storeExample).2.1 "REG2000" "QR").mpr
      (by simp [storeExample])
  · exact (C4_boolean_error_results storeExample).2.2.2.2.2.2.2.2.2 "MISSING" "a" "b"
      (by decide)

/-- Claim C1: verifyAndScan is a four-branch conditional and every call lands
in exactly one branch: unknown id with a not-found message; present but no QR
with a not-generated message; exhausted (by status or by scan count) with an
exhausted or maximum-scans message; otherwise a valid scan that increments the
count by exactly one, reclassifies the status to exhausted exactly when the
new count reaches the maximum and to checked-in otherwise, and returns the
updated registration.  The guards of the four disjuncts are mutually
exclusive, so exactly one applies. -/
theorem C1_verifyAndScan_four_branches :
    ∀ (s : MemStorage) (tid a b : String),
      (mapGet s.registrations tid = none
        ∧ (verifyAndScan s tid a b).1.valid = false
        ∧ (verifyAndScan s tid a b).1.message = "Invalid ticket - not found")
      ∨ (∃ r, mapGet s.registrations tid = some r ∧ r.hasQR = false
        ∧ (verifyAndScan s tid a b).1.valid = false
        ∧ (verifyAndScan s tid a b).1.message = "QR code not generated yet")
      ∨ (∃ r, mapGet s.registrations tid = some r ∧ r.hasQR = true
        ∧ (r.status = "exhausted" ∨ r.maxScans ≤ r.scans)
        ∧ (verifyAndScan s tid a b).1.valid = false
        ∧ ((verifyAndScan s tid a b).1.message = "Ticket exhausted - max scans reached"
          ∨ (verifyAndScan s tid a b).1.message = "Maximum scans reached"))
      ∨ (∃ r, mapGet s.registrations tid = some r ∧ r.hasQR = true
        ∧ r.status ≠ "exhausted" ∧ r.scans < r.maxScans
        ∧ (verifyAndScan s tid a b).1.valid = true
        ∧ (verifyAndScan s tid a b).1.registration = some (scannedReg r)
        ∧ mapGet (verifyAndScan s tid a b).2.registrations tid = some (scannedReg r)
        ∧ (scannedReg r).scans = r.scans + 1
        ∧ (scannedReg r).status =
            (if r.maxScans ≤ r.scans + 1 then "exhausted" else "checked-in")) := by
  intro s tid a b
  cases h : mapGet s.registrations tid with
  | none =>
      exact Or.inl ⟨rfl, by rw [verifyAndScan_not_found a b h], by rw [verifyAndScan_not_found a b h]⟩
  | some r =>
      by_cases hq : r.hasQR
      · by_cases hs : r.status = "exhausted"
        · refine Or.inr (Or.inr (Or.inl ⟨r, rfl, hq, Or.inl hs, ?_, Or.inl ?_⟩))
          · rw [verifyAndScan_exhausted_status a b h hq hs]
          · rw [verifyAndScan_exhausted_status a b h hq hs]
        · by_cases hm : r.maxScans ≤ r.scans
          · refine Or.inr (Or.inr (Or.inl ⟨r, rfl, hq, Or.inr hm, ?_, Or.inr ?_⟩))
            · rw [verifyAndScan_max_reached a b h hq hs hm]
            · rw [verifyAndScan_max_reached a b h hq hs hm]
          · have hlt := Nat.not_le.mp hm
            refine Or.inr (Or.inr (Or.inr ⟨r, rfl, hq, hs, hlt, ?_, ?_, ?_, rfl, rfl⟩))
            · rw [verifyAndScan_ok a b h hq hs hlt]
            · rw [verifyAndScan_ok a b h hq hs hlt]
            · rw [verifyAndScan_ok a b h hq hs hlt]
              simp [mapGet_mapSet_self]
      · have hq2 : r.hasQR = false := Bool.not_eq_true _ ▸ hq
        refine Or.inr (Or.inl ⟨r, rfl, hq2, ?_, ?_⟩)
        · rw [verifyAndScan_no_qr a b h hq2]
        · rw [verifyAndScan_no_qr a b h hq2]

/-- Every single storage operation preserves the scan-count invariant. -/
theorem applyOp_preserves_regInvariant (s : MemStorage) (op : Op)
    (h : RegInvariant s) : RegInvariant (applyOp s op) := by
  cases op with
  | createReg id now data =>
      intro p hp
      simp only [applyOp, createRegistration] at hp
      rcases mem_mapSet hp with hmem | heq
      · exact h p hmem
      · rw [heq]
        exact Nat.zero_le _
  | genQR id qr =>
      cases hm : mapGet s.registrations id with
      | none =>
          intro p hp
          simp only [applyOp, generateQRCode, hm] at hp
          exact h p hp
      | some reg =>
          intro p hp
          simp only [applyOp, generateQRCode, hm] at hp
          rcases mem_mapSet hp with hmem | heq
          · exact h p hmem
          · rw [heq]
            exact h (id, reg) (mapGet_mem hm)
  | scan tid a b =>
      cases hm : mapGet s.registrations tid with
      | none =>
          intro p hp
          simp only [applyOp] at hp
          rw [verifyAndScan_not_found a b hm] at hp
          exact h p hp
      | some r =>
          by_cases hq : r.hasQR
          · by_cases hst : r.status = "exhausted"
            · intro p hp
              simp only [applyOp] at hp
              rw [verifyAndScan_exhausted_status a b hm hq hst] at hp
              exact h p hp
            · by_cases hmx : r.maxScans ≤ r.scans
              · intro p hp
                simp only [applyOp] at hp
                rw [verifyAndScan_max_reached a b hm hq hst hmx] at hp
                rcases mem_mapSet hp with hmem | heq
                · exact h p hmem
                · rw [heq]
                  exact h (tid, r) (mapGet_mem hm)
              · intro p hp
                simp only [applyOp] at hp
                rw [verifyAndScan_ok a b hm hq hst (Nat.not_le.mp hmx)] at hp
                rcases mem_mapSet hp with hmem | heq
                · exact h p hmem
                · rw [heq]
                  exact Nat.not_le.mp hmx
          · intro p hp
            simp only [applyOp] at hp
            rw [verifyAndScan_no_qr a b hm (Bool.not_eq_true _ ▸ hq)] at hp
            exact h p hp
  | revoke id =>
      cases hm : mapGet s.registrations id with
      | none =>
          intro p hp
          simp only [applyOp, revokeQRCode, hm] at hp
          exact h p hp
      | some reg =>
          intro p hp
          simp only [applyOp, revokeQRCode, hm] at hp
          rcases mem_mapSet hp with hmem | heq
          · exact h p hmem
          · rw [heq]
            exact Nat.zero_le _
  | updateReg id data =>
      cases hm : mapGet s.registrations id with
      | none =>
          intro p hp
          simp only [applyOp, updateRegistration, hm] at hp
          exact h p hp
      | some reg =>
          intro p hp
          simp only [applyOp, updateRegistration, hm] at hp
          rcases mem_mapSet hp with hmem | heq
          · exact h p hmem
          · rw [heq]
            exact h (id, reg) (mapGet_mem hm)
  | deleteReg id =>
      cases hm : mapGet s.registrations id with
      | none =>
          intro p hp
          simp only [applyOp, deleteRegistration, hm] at hp
          exact h p hp
      | some reg =>
          intro p hp
          simp only [applyOp, deleteRegistration, hm] at hp
          exact h p (mem_mapDelete hp)
  | createForm now data =>
      intro p hp
      simp only [applyOp, createEventForm] at hp
      exact h p hp
  | updateForm id now data =>
      cases hm : mapGet s.eventForms id with
      | none =>
          intro p hp
          simp only [applyOp, updateEventForm, hm] at hp
          exact h p hp
      | some form =>
          intro p hp
          simp only [applyOp, updateEventForm, hm] at hp
          exact h p hp
  | publishForm id =>
      cases hm : mapGet s.eventForms id with
      | none =>
          intro p hp
          simp only [applyOp, publishEventForm, hm] at hp
          exact h p hp
      | some form =>
          intro p hp
          simp only [applyOp, publishEventForm, hm] at hp
          exact h p hp
  | unpublishForm id =>
      cases hm : mapGet s.eventForms id with
      | none =>
          intro p hp
          simp only [applyOp, unpublishEventForm, hm] at hp
          exact h p hp
      | some form =>
          intro p hp
          simp only [applyOp, unpublishEventForm, hm] at hp
          exact h p hp
  | deleteForm id =>
      cases hm : mapGet s.eventForms id with
      | none =>
          intro p hp
          simp only [applyOp, deleteEventForm, hm] at hp
          exact h p hp
      | some form =>
          intro p hp
          simp only [applyOp, deleteEventForm, hm] at hp
          exact h p hp

/-- Any operation sequence preserves the scan-count invariant. -/
theorem runOps_preserves_regInvariant (ops : List Op) :
    ∀ s : MemStorage, RegInvariant s → RegInvariant (runOps s ops) := by
  induction ops with
  | nil => exact fun s h => h
  | cons op rest ih =>
      exact fun s h => ih (applyOp s op) (applyOp_preserves_regInvariant s op h)

/-- Claim C3: in every state reachable from the empty store by any sequence of
storage operations, every stored registration keeps its scan count between 0
and its maximum. -/
theorem C3_scan_count_invariant :
    ∀ ops : List Op, ∀ p ∈ (runOps emptyStorage ops).registrations,
      0 ≤ p.2.scans ∧ p.2.scans ≤ p.2.maxScans := by
  intro ops p hp
  have hempty : RegInvariant emptyStorage := by
    intro q hq
    simp [emptyStorage] at hq
  exact ⟨Nat.zero_le _, runOps_preserves_regInvariant ops emptyStorage hempty p hp⟩

/-- Claim C3 witness: the registration created by the concrete trace is stored
and satisfies the invariant. -/
theorem C3_scan_count_invariant_witness :
    ("REG1000", regCreated) ∈ (runOps emptyStorage opsExample).registrations
    ∧ 0 ≤ regCreated.scans ∧ regCreated.scans ≤ regCreated.maxScans := by
  have hmem : ("REG1000", regCreated) ∈ (runOps emptyStorage opsExample).registrations := by
    decide
  exact ⟨hmem, C3_scan_count_invariant opsExample ("REG1000", regCreated) hmem⟩

/-- A list of forms that are all unpublished has published count 0. -/
theorem countPublished_eq_zero {m : List (Nat × EventForm)}
    (h : ∀ p ∈ m, p.2.isPublished = false) : countPublished m = 0 := by
  induction m with
  | nil => rfl
  | cons q rest ih =>
      obtain ⟨k1, v1⟩ := q
      have hv : v1.isPublished = false := h (k1, v1) (by simp)
      have ih2 := ih (fun p hp => h p (List.mem_cons_of_mem _ hp))
      simpa [countPublished, hv] using ih2

/-- Setting one binding into an all-unpublished list leaves at most one
published form. -/
theorem countPublished_mapSet_le_one {m : List (Nat × EventForm)}
    (h : ∀ p ∈ m, p.2.isPublished = false) (k : Nat) (v : EventForm) :
    countPublished (mapSet m k v) ≤ 1 := by
  induction m with
  | nil =>
      cases hv : v.isPublished <;> simp [mapSet, countPublished, hv]
  | cons q rest ih =>
      obtain ⟨k1, v1⟩ := q
      have hv1 : v1.isPublished = false := h (k1, v1) (by simp)
      have hrest : ∀ p ∈ rest, p.2.isPublished = false :=
        fun p hp => h p (List.mem_cons_of_mem _ hp)
      by_cases hk : k1 = k
      · have h0 : countPublished rest = 0 := countPublished_eq_zero hrest
        have h0l : ((rest.map Prod.snd).filter (fun f => f.isPublished)).length = 0 := h0
        cases hv : v.isPublished <;> simp [mapSet, hk, countPublished, hv, h0l]
      · have ih2 := ih hrest
        simpa [mapSet, hk, countPublished, hv1] using ih2

/-- Setting an unpublished binding never increases the published count. -/
theorem countPublished_mapSet_unpub {m : List (Nat × EventForm)} {v : EventForm}
    (hv : v.isPublished = false) (k : Nat) :
    countPublished (mapSet m k v) ≤ countPublished m := by
  induction m with
  | nil => simp [mapSet, countPublished, hv]
  | cons q rest ih =>
      obtain ⟨k1, v1⟩ := q
      by_cases hk : k1 = k
      · cases hv1 : v1.isPublished <;>
          simp [mapSet, hk, countPublished, hv, hv1]
      · cases hv1 : v1.isPublished <;>
          simpa [mapSet, hk, countPublished, hv1] using ih

/-- Deleting a binding never increases the published count. -/
theorem countPublished_mapDelete_le (m : List (Nat × EventForm)) (k : Nat) :
    countPublished (mapDelete m k) ≤ countPublished m := by
  induction m with
  | nil => simp [mapDelete]
  | cons q rest ih =>
      obtain ⟨k1, v1⟩ := q
      by_cases hk : k1 = k
      · cases hv1 : v1.isPublished <;> simp [mapDelete, hk, countPublished, hv1]
      · cases hv1 : v1.isPublished <;>
          simpa [mapDelete, hk, countPublished, hv1] using ih

/-- Lookup through a value-rewriting map of an association list. -/
theorem mapGet_map {κ ν : Type} [DecidableEq κ] (g : ν → ν) (m : List (κ × ν)) (k : κ) :
    mapGet (m.map (fun p => (p.1, g p.2))) k = (mapGet m k).map g := by
  induction m with
  | nil => simp [mapGet]
  | cons q rest ih =>
      obtain ⟨k1, v1⟩ := q
      by_cases h : k1 = k <;> simp [mapGet, h, ih]

/-- When at most one form of a list is published, find locates precisely any
published member. -/
theorem find_published_unique {l : List EventForm}
    (hc : (l.filter (fun f => f.isPublished)).length ≤ 1)
    {f : EventForm} (hf : f ∈ l) (hp : f.isPublished = true) :
    l.find? (fun x => x.isPublished) = some f := by
  induction l with
  | nil => simp at hf
  | cons a rest ih =>
      by_cases ha : a.isPublished = true
      · rcases List.mem_cons.mp hf with heq | hfr
        · subst heq
          exact List.find?_cons_of_pos _ hp
        · exfalso
          have hmem : f ∈ rest.filter (fun x => x.isPublished) :=
            List.mem_filter.mpr ⟨hfr, by simp [hp]⟩
          have hpos : 0 < (rest.filter (fun x => x.isPublished)).length :=
            List.length_pos.mpr (fun hnil => by simp [hnil] at hmem)
          have hcons : ((a :: rest).filter (fun x => x.isPublished)).length =
              (rest.filter (fun x => x.isPublished)).length + 1 := by
            simp [List.filter_cons, ha]
          omega
      · have ha2 : a.isPublished = false := by
          cases hab : a.isPublished
          · rfl
          · exact absurd hab ha
        rcases List.mem_cons.mp hf with heq | hfr
        · rw [heq] at hp
          rw [hp] at ha2
          exact absurd ha2 (by simp)
        · have hc2 : (rest.filter (fun x => x.isPublished)).length ≤ 1 := by
            have hcons : ((a :: rest).filter (fun x => x.isPublished)) =
                rest.filter (fun x => x.isPublished) := by
              simp [List.filter_cons, ha2]
            rw [hcons] at hc
            exact hc
          rw [List.find?_cons_of_neg _ (by simp [ha2])]
          exact ih hc2 hfr

/-- Every event-form operation preserves the at-most-one-published bound. -/
theorem applyFormOp_preserves_pubBound (s : MemStorage) (op : FormOp)
    (h : publishedCount s ≤ 1) : publishedCount (applyFormOp s op) ≤ 1 := by
  cases op with
  | create now data =>
      have hle := countPublished_mapSet_unpub (m := s.eventForms) (v :=
        (createEventForm s now data).1) rfl s.nextFormId
      calc publishedCount (applyFormOp s (FormOp.create now data))
          ≤ countPublished s.eventForms := hle
        _ ≤ 1 := h
  | publish id =>
      cases hm : mapGet s.eventForms id with
      | none => simpa [applyFormOp, publishEventForm, hm] using h
      | some form =>
          have hall : ∀ p ∈ s.eventForms.map
              (fun p => (p.1, { p.2 with isPublished := false })),
              p.2.isPublished = false := by
            intro p hp
            obtain ⟨q, _, rfl⟩ := List.mem_map.mp hp
            rfl
          have := countPublished_mapSet_le_one hall id { form with isPublished := true }
          simpa [applyFormOp, publishEventForm, hm, publishedCount] using this
  | unpublish id =>
      cases hm : mapGet s.eventForms id with
      | none => simpa [applyFormOp, unpublishEventForm, hm] using h
      | some form =>
          have := countPublished_mapSet_unpub (m := s.eventForms)
            (v := { form with isPublished := false }) rfl id
          calc publishedCount (applyFormOp s (FormOp.unpublish id))
              ≤ countPublished s.eventForms := by
                simpa [applyFormOp, unpublishEventForm, hm, publishedCount] using this
            _ ≤ 1 := h
  | delete id =>
      cases hm : mapGet s.eventForms id with
      | none => simpa [applyFormOp, deleteEventForm, hm] using h
      | some form =>
          have := countPublished_mapDelete_le s.eventForms id
          calc publishedCount (applyFormOp s (FormOp.delete id))
              ≤ countPublished s.eventForms := by
                simpa [applyFormOp, deleteEventForm, hm, publishedCount] using this
            _ ≤ 1 := h

/-- Any event-form operation sequence preserves the bound. -/
theorem runFormOps_preserves_pubBound (ops : List FormOp) :
    ∀ s : MemStorage, publishedCount s ≤ 1 → publishedCount (runFormOps s ops) ≤ 1 := by
  induction ops with
  | nil => exact fun s h => h
  | cons op rest ih =>
      exact fun s h => ih (applyFormOp s op) (applyFormOp_preserves_pubBound s op h)

/-- Claim C7: at most one published form.  After any sequence of create,
publish, unpublish and delete of event forms from the empty store at most one
form is published; createEventForm always creates unpublished; a successful
publishEventForm publishes the target and leaves every other stored form
unpublished; and getPublishedForm yields any stored published form (unique by
the bound) and null when none is published. -/
theorem C7_at_most_one_published :
    (∀ ops : List FormOp, publishedCount (runFormOps emptyStorage ops) ≤ 1)
    ∧ (∀ (s : MemStorage) (now : String) (data : EventFormInput),
        (createEventForm s now data).1.isPublished = false)
    ∧ (∀ (s : MemStorage) (id : Nat) (form : EventForm),
        mapGet s.eventForms id = some form →
          (publishEventForm s id).1 = true
          ∧ mapGet (publishEventForm s id).2.eventForms id =
              some { form with isPublished := true }
          ∧ (∀ k2, k2 ≠ id → ∀ f2,
              mapGet (publishEventForm s id).2.eventForms k2 = some f2 →
                f2.isPublished = false))
    ∧ (∀ ops : List FormOp,
        ((∀ f ∈ (runFormOps emptyStorage ops).eventForms.map Prod.snd,
            f.isPublished = false) →
          getPublishedForm (runFormOps emptyStorage ops) = none)
        ∧ (∀ f ∈ (runFormOps emptyStorage ops).eventForms.map Prod.snd,
            f.isPublished = true →
              getPublishedForm (runFormOps emptyStorage ops) = some f)) := by
  refine ⟨?_, ?_, ?_, ?_⟩
  · intro ops
    exact runFormOps_preserves_pubBound ops emptyStorage (by simp [publishedCount,
      countPublished, emptyStorage])
  · intro s now data
    rfl
  · intro s id form hm
    refine ⟨by simp [publishEventForm, hm], ?_, ?_⟩
    · simp [publishEventForm, hm, mapGet_mapSet_self]
    · intro k2 hk2 f2 hf2
      rw [show (publishEventForm s id).2.eventForms =
            mapSet (s.eventForms.map (fun p => (p.1, { p.2 with isPublished := false })))
              id { form with isPublished := true } by simp [publishEventForm, hm]] at hf2
      rw [mapGet_mapSet_ne _ _ _ _ hk2] at hf2
      have hmm : (mapGet s.eventForms k2).map (fun f => { f with isPublished := false })
          = some f2 := by
        rw [← mapGet_map]
        exact hf2
      cases hm2 : mapGet s.eventForms k2 with
      | none => rw [hm2] at hmm; simp at hmm
      | some f3 =>
          rw [hm2] at hmm
          simp at hmm
          rw [← hmm]
  · intro ops
    constructor
    · intro hall
      exact List.find?_eq_none.mpr (fun f hf => by simp [hall f hf])
    · intro f hf hp
      exact find_published_unique
        (runFormOps_preserves_pubBound ops emptyStorage
          (by simp [publishedCount, countPublished, emptyStorage])) hf hp

/-- Claim C7 witness: after creating one form and publishing it, the published
count is at most one and getPublishedForm returns the published form. -/
theorem C7_at_most_one_published_witness :
    publishedCount (runFormOps emptyStorage formOpsExample) ≤ 1
    ∧ getPublishedForm (runFormOps emptyStorage formOpsExample) =
        some { formExample with isPublished := true } := by
  refine ⟨C7_at_most_one_published.1 formOpsExample, ?_⟩
  exact (C7_at_most_one_published.2.2.2 formOpsExample).2
    { formExample with isPublished := true } (by decide) (by decide)

/-- State of a ticket under iterated scanning: starting from an issued ticket
(QR present, status active, zero scans, maximum g), after n of at most g scans
the stored registration has n scans and status active (n = 0), checked-in
(0 < n < g) or exhausted (n = g). -/
theorem scanTimes_reg_state (s : MemStorage) (tid : String) (meta : Nat → String × String)
    (r : Registration) (g : Nat) (hg : 1 ≤ g)
    (h : mapGet s.registrations tid = some r) (hQR : r.hasQR = true)
    (hst : r.status = "active") (hsc : r.scans = 0) (hmx : r.maxScans = g) :
    ∀ n, n ≤ g → ∃ rn, mapGet (scanTimes s tid meta n).registrations tid = some rn
      ∧ rn.hasQR = true ∧ rn.maxScans = g ∧ rn.scans = n
      ∧ rn.status =
          (if n = 0 then "active" else if n < g then "checked-in" else "exhausted") := by
  intro n
  induction n with
  | zero =>
      intro _
      exact ⟨r, h, hQR, hmx, hsc, by simp [hst]⟩
  | succ n ih =>
      intro hn1
      have hn : n ≤ g := Nat.le_of_succ_le hn1
      have hnlt : n < g := hn1
      obtain ⟨rn, hget, hq, hm, hs, hstn⟩ := ih hn
      have hne : rn.status ≠ "exhausted" := by
        rw [hstn]
        by_cases h0 : n = 0 <;> simp [h0, hnlt]
      have hlt : rn.scans < rn.maxScans := by
        rw [hs, hm]
        exact hnlt
      refine ⟨scannedReg rn, ?_, hq, hm, ?_, ?_⟩
      · show mapGet ((verifyAndScan (scanTimes s tid meta n) tid
            (meta n).1 (meta n).2).2).registrations tid = _
        rw [verifyAndScan_ok _ _ hget hq hne hlt]
        simp [mapGet_mapSet_self]
      · show rn.scans + 1 = n + 1
        rw [hs]
      · show (if rn.maxScans ≤ rn.scans + 1 then "exhausted" else "checked-in") = _
        rw [hs, hm]
        by_cases hlt2 : n + 1 < g
        · simp [Nat.not_le.mpr hlt2, hlt2]
        · simp [Nat.not_lt.mp hlt2, hlt2]

/-- Once the maximum is reached, further scans leave the store unchanged. -/
theorem scanTimes_absorb (s : MemStorage) (tid : String) (meta : Nat → String × String)
    (r : Registration) (g : Nat) (hg : 1 ≤ g)
    (h : mapGet s.registrations tid = some r) (hQR : r.hasQR = true)
    (hst : r.status = "active") (hsc : r.scans = 0) (hmx : r.maxScans = g) :
    ∀ m, scanTimes s tid meta (g + m) = scanTimes s tid meta g := by
  intro m
  induction m with
  | zero => rfl
  | succ m ih =>
      obtain ⟨rg, hget, hq, _, _, hst2⟩ :=
        scanTimes_reg_state s tid meta r g hg h hQR hst hsc hmx g le_rfl
      have hg0 : g ≠ 0 := by omega
      have hex : rg.status = "exhausted" := by
        rw [hst2]
        simp [hg0]
      show (verifyAndScan (scanTimes s tid meta (g + m)) tid
          (meta (g + m)).1 (meta (g + m)).2).2 = _
      rw [ih, verifyAndScan_exhausted_status _ _ hget hq hex]

/-- Claim C2: validate-and-consume lifecycle.  For a registration created with
group size g (nonzero, so maxScans = g) whose QR code has been generated, a
run of verifyAndScan calls on its id with nothing interleaved is valid for
exactly the first g calls and invalid afterwards; each of the first g calls
increments the stored scan count by exactly 1, and after the g-th call the
status is exhausted. -/
theorem C2_scan_lifecycle :
    ∀ (s0 : MemStorage) (id now qr : String) (data : InsertRegistration)
      (g : Nat) (meta : Nat → String × String),
      data.groupSize = some g → g ≠ 0 →
      ((createRegistration s0 id now data).1.maxScans = g
      ∧ (∀ k, 1 ≤ k →
          ((verifyAndScan (scanTimes (afterIssue s0 id now qr data) id meta (k - 1)) id
              (meta (k - 1)).1 (meta (k - 1)).2).1.valid = true ↔ k ≤ g))
      ∧ (∀ k, 1 ≤ k → k ≤ g →
          ∃ rp rn,
            mapGet (scanTimes (afterIssue s0 id now qr data) id meta (k - 1)).registrations
                id = some rp
            ∧ mapGet (scanTimes (afterIssue s0 id now qr data) id meta k).registrations
                id = some rn
            ∧ rn.scans = rp.scans + 1)
      ∧ (∃ rg, mapGet (scanTimes (afterIssue s0 id now qr data) id meta g).registrations
            id = some rg ∧ rg.scans = g ∧ rg.status = "exhausted")) := by
  intro s0 id now qr data g meta hgs hg0
  have hg : 1 ≤ g := Nat.pos_of_ne_zero hg0
  have hmax1 : (createRegistration s0 id now data).1.maxScans = g := by
    simp [createRegistration, hgs, hg0]
  have hget1 : mapGet (createRegistration s0 id now data).2.registrations id =
      some (createRegistration s0 id now data).1 := by
    simp [createRegistration, mapGet_mapSet_self]
  have hget2 : mapGet (afterIssue s0 id now qr data).registrations id =
      some { (createRegistration s0 id now data).1 with
               hasQR := true, qrCodeData := some qr, status := "active" } := by
    show mapGet (generateQRCode (createRegistration s0 id now data).2 id qr).2.registrations
        id = _
    rw [show (generateQRCode (createRegistration s0 id now data).2 id qr).2 =
          { (createRegistration s0 id now data).2 with
              registrations := mapSet (createRegistration s0 id now data).2.registrations id
                { (createRegistration s0 id now data).1 with
                    hasQR := true, qrCodeData := some qr, status := "active" } } by
        simp [generateQRCode, hget1]]
    simp [mapGet_mapSet_self]
  have hsc1 : (createRegistration s0 id now data).1.scans = 0 := by
    simp [createRegistration]
  have hstate := scanTimes_reg_state (afterIssue s0 id now qr data) id meta
    { (createRegistration s0 id now data).1 with
        hasQR := true, qrCodeData := some qr, status := "active" } g hg hget2 rfl rfl
    hsc1 hmax1
  have habsorb := scanTimes_absorb (afterIssue s0 id now qr data) id meta
    { (createRegistration s0 id now data).1 with
        hasQR := true, qrCodeData := some qr, status := "active" } g hg hget2 rfl rfl
    hsc1 hmax1
  refine ⟨hmax1, ?_, ?_, ?_⟩
  · intro k hk
    by_cases hkg : k ≤ g
    · have hk1g : k - 1 < g := by omega
      obtain ⟨rn, hget, hq, hm, hs, hstn⟩ := hstate (k - 1) (by omega)
      have hne : rn.status ≠ "exhausted" := by
        rw [hstn]
        by_cases h0 : k - 1 = 0 <;> simp [h0, hk1g]
      have hlt : rn.scans < rn.maxScans := by
        rw [hs, hm]
        exact hk1g
      rw [verifyAndScan_ok _ _ hget hq hne hlt]
      simp [hkg]
    · have hksplit : k - 1 = g + (k - 1 - g) := by omega
      rw [hksplit, habsorb (k - 1 - g)]
      obtain ⟨rg, hget, hq, _, _, hst2⟩ := hstate g le_rfl
      have hex : rg.status = "exhausted" := by
        rw [hst2]
        simp [hg0]
      rw [verifyAndScan_exhausted_status _ _ hget hq hex]
      simp [hkg]
  · intro k hk hkg
    obtain ⟨rp, hgetp, _, _, hsp, _⟩ := hstate (k - 1) (by omega)
    obtain ⟨rn, hgetn, _, _, hsn, _⟩ := hstate k hkg
    exact ⟨rp, rn, hgetp, hgetn, by rw [hsp, hsn]; omega⟩
  · obtain ⟨rg, hget, _, _, hs, hst2⟩ := hstate g le_rfl
    have hex : rg.status = "exhausted" := by
      rw [hst2]
      simp [hg0]
    exact ⟨rg, hget, hs, hex⟩

/-- Claim C2 witness: for the concrete group of two, the second scan is still
valid and after two scans the stored status is exhausted. -/
theorem C2_scan_lifecycle_witness :
    insertExample.groupSize = some 2 ∧ (2 : Nat) ≠ 0
    ∧ (createRegistration emptyStorage "REG1000" "t0" insertExample).1.maxScans = 2
    ∧ (verifyAndScan (scanTimes (afterIssue emptyStorage "REG1000" "t0" "QR" insertExample)
        "REG1000" (fun _ => ("S", "ts")) (2 - 1)) "REG1000" "S" "ts").1.valid = true
    ∧ (∃ rg, mapGet (scanTimes (afterIssue emptyStorage "REG1000" "t0" "QR" insertExample)
        "REG1000" (fun _ => ("S", "ts")) 2).registrations "REG1000" = some rg
        ∧ rg.scans = 2 ∧ rg.status = "exhausted") := by
  have h := C2_scan_lifecycle emptyStorage "REG1000" "t0" "QR" insertExample 2
    (fun _ => ("S", "ts")) rfl (by decide)
  exact ⟨rfl, by decide, h.1, (h.2.1 2 (by decide)).mpr (by decide), h.2.2.2⟩

end EventApp
